import Mathlib

/-!
Shallow embedding of the client-side behavior layer of a personal portfolio
website (ThemeManager, NavigationManager, ScrollEffects, FormValidation),
translated from the JavaScript sources, together with theorems settling the
specification claims about them.

DOM side effects are made explicit as fields of small state records; browser
native primitives (RegExp matching, URL parsing) are abstracted as oracle
parameters, since the sources use them as given primitives.
-/

namespace ThemeManager

/-- The two recognised theme values held in the `themes` lookup of the source. -/
def LIGHT : String := "light"

def DARK : String := "dark"

/-- `Object.values(this.themes)`. -/
def themeValues : List String := [LIGHT, DARK]

/-- Observable state of a `ThemeManager` instance:
`currentTheme` is the in-memory field, `storage` the `localStorage` entry under
the `portfolio-theme` key (`none` = absent), `docAttr` the `data-bs-theme`
attribute on the document root (`none` = never set), and `events` the list of
`themeChange` notifications dispatched so far (each carrying the theme value). -/
structure ThemeState where
  currentTheme : String
  storage : Option String
  docAttr : Option String
  events : List String
deriving Repr, DecidableEq

/-- `saveTheme()`: `localStorage.setItem(this.storageKey, this.currentTheme)`. -/
def saveTheme (st : ThemeState) : ThemeState :=
  { st with storage := some st.currentTheme }

/-- `applyTheme()`: sets `data-bs-theme` on the document root to the current
theme and dispatches a `themeChange` notification carrying it.  (Icon class and
tooltip mutations are pure DOM cosmetics on collaborator elements and carry no
state the claims mention.) -/
def applyTheme (st : ThemeState) : ThemeState :=
  { st with docAttr := some st.currentTheme, events := st.events ++ [st.currentTheme] }

/-- `toggleTheme()`: flips `currentTheme` between LIGHT and DARK, then
`saveTheme()`, then `applyTheme()`. -/
def toggleTheme (st : ThemeState) : ThemeState :=
  applyTheme (saveTheme
    { st with currentTheme := if st.currentTheme = LIGHT then DARK else LIGHT })

/-- `setTheme(theme)`: returns unchanged unless `Object.values(this.themes)`
contains `theme`; otherwise assigns, saves and applies. -/
def setTheme (theme : String) (st : ThemeState) : ThemeState :=
  if theme ∈ themeValues then
    applyTheme (saveTheme { st with currentTheme := theme })
  else st

end ThemeManager

open ThemeManager in
/-- C7: for every value not in {light, dark}, `setTheme` is a silent no-op: the
in-memory theme, the persisted storage entry and the document-root theme
attribute are all left unchanged (the state is returned as is), and being a
total function it raises no error. -/
theorem setTheme_unrecognized_noop (theme : String) (st : ThemeState)
    (h : theme ∉ themeValues) : setTheme theme st = st := by
  simp [setTheme, h]

open ThemeManager in
/-- Witness for `setTheme_unrecognized_noop` at the concrete value `"blue"`. -/
theorem setTheme_unrecognized_noop_witness :
    "blue" ∉ themeValues ∧
      setTheme "blue" ⟨"light", some "light", some "light", []⟩ =
        ⟨"light", some "light", some "light", []⟩ :=
  ⟨by decide, setTheme_unrecognized_noop "blue" _ (by decide)⟩

open ThemeManager in
/-- C8 counterexample: starting from the light theme state with nothing yet
persisted (the fresh state after construction), toggling twice restores the
in-memory theme but does NOT restore the original persisted storage value: the
storage entry goes from absent to `some "light"`. -/
theorem toggleTheme_twice_not_involutive_on_storage :
    let st0 : ThemeState := ⟨"light", none, none, []⟩
    (toggleTheme (toggleTheme st0)).currentTheme = st0.currentTheme ∧
      (toggleTheme (toggleTheme st0)).storage ≠ st0.storage := by
  decide

open ThemeManager in
/-- C8 (amended): starting from either theme state (current theme light or
dark), applying `toggleTheme` twice restores the original in-memory theme, and
leaves the persisted entry equal to that theme; in particular whenever the
persisted entry already equalled the current theme, it too is restored. -/
theorem toggleTheme_twice_restores (st : ThemeState)
    (h : st.currentTheme = LIGHT ∨ st.currentTheme = DARK) :
    (toggleTheme (toggleTheme st)).currentTheme = st.currentTheme ∧
      (toggleTheme (toggleTheme st)).storage = some st.currentTheme ∧
      (st.storage = some st.currentTheme →
        (toggleTheme (toggleTheme st)).storage = st.storage) := by
  rcases h with h | h <;>
    simp [toggleTheme, saveTheme, applyTheme, LIGHT, DARK, h] <;>
    exact fun h2 => h2.symm

open ThemeManager in
/-- Witness for `toggleTheme_twice_restores` at a concrete dark state with the
persisted entry in sync. -/
theorem toggleTheme_twice_restores_witness :
    (toggleTheme (toggleTheme ⟨"dark", some "dark", some "dark", []⟩)).currentTheme = "dark" ∧
      (toggleTheme (toggleTheme ⟨"dark", some "dark", some "dark", []⟩)).storage = some "dark" :=
  ⟨(toggleTheme_twice_restores ⟨"dark", some "dark", some "dark", []⟩ (Or.inr rfl)).1,
   (toggleTheme_twice_restores ⟨"dark", some "dark", some "dark", []⟩ (Or.inr rfl)).2.1⟩

namespace NavigationManager

/-- A snapshotted page section: its `id` attribute and the `offsetTop` /
`offsetHeight` layout readings. -/
structure Section where
  id : String
  offsetTop : Int
  offsetHeight : Int
deriving Repr, DecidableEq

/-- `this.scrollOffset = 100`. -/
def scrollOffset : Int := 100

/-- Observable state of a `NavigationManager` instance: the section registry
snapshot, the active-section pointer `currentSection`, and the list of
`navigationChange` notifications dispatched so far (each carrying the section
id). -/
structure NavState where
  sections : List Section
  currentSection : Option Section
  events : List String
deriving Repr, DecidableEq

/-- One iteration of the candidate loop in `updateActiveNavigation`: the
accumulator holds the best `(activeSection, minDistance)` so far (`none` models
`activeSection = null`, `minDistance = Infinity`).  A section is a candidate
when `scrollTop` lies in `[offsetTop - scrollOffset, offsetTop - scrollOffset
+ offsetHeight)`; a strictly smaller `|scrollTop - top|` replaces the best. -/
def candidateStep (scrollTop : Int) (acc : Option (Section × Int)) (s : Section) :
    Option (Section × Int) :=
  let top := s.offsetTop - scrollOffset
  let bottom := top + s.offsetHeight
  if scrollTop ≥ top ∧ scrollTop < bottom then
    let distance := |scrollTop - top|
    match acc with
    | none => some (s, distance)
    | some (_, minDistance) =>
        if distance < minDistance then some (s, distance) else acc
  else acc

/-- The section-selection logic of `updateActiveNavigation`: run the candidate
loop over the registry; if no section qualified and the registry is non-empty,
fall back to the first section when `scrollTop < sections[0].offsetTop`, else
to the last section. -/
def computeActiveSection (sections : List Section) (scrollTop : Int) : Option Section :=
  match sections.foldl (candidateStep scrollTop) none with
  | some (s, _) => some s
  | none =>
    match sections with
    | [] => none
    | first :: rest =>
      if scrollTop < first.offsetTop then some first
      else some (((first :: rest).getLast?).getD first)

/-- `setActiveNavLink(activeSection)`: returns unchanged when the pointer
already equals the computed section; otherwise, when the computed section is
non-null, updates the pointer and dispatches a `navigationChange` notification
carrying its id.  (JS compares by object identity; registry sections are
distinct objects, modelled by value equality on the snapshot records.) -/
def setActiveNavLink (active : Option Section) (st : NavState) : NavState :=
  if st.currentSection = active then st
  else
    match active with
    | none => st
    | some s => { st with currentSection := some s, events := st.events ++ [s.id] }

/-- `updateActiveNavigation()`: compute the active section for the current
scroll position over the registry and hand it to `setActiveNavLink`. -/
def updateActiveNavigation (scrollTop : Int) (st : NavState) : NavState :=
  setActiveNavLink (computeActiveSection st.sections scrollTop) st

/-- If no section satisfies the candidate condition at `scrollTop`, the
candidate loop leaves the accumulator untouched. -/
theorem foldl_candidateStep_none (scrollTop : Int) (sections : List Section)
    (acc : Option (Section × Int))
    (h : ∀ s ∈ sections,
      ¬(scrollTop ≥ s.offsetTop - scrollOffset ∧
        scrollTop < s.offsetTop - scrollOffset + s.offsetHeight)) :
    sections.foldl (candidateStep scrollTop) acc = acc := by
  induction sections generalizing acc with
  | nil => rfl
  | cons a l ih =>
      have ha := h a (List.mem_cons_self a l)
      have hl : ∀ s ∈ l,
          ¬(scrollTop ≥ s.offsetTop - scrollOffset ∧
            scrollTop < s.offsetTop - scrollOffset + s.offsetHeight) :=
        fun s hs => h s (List.mem_cons_of_mem a hs)
      simp only [List.foldl_cons]
      rw [show candidateStep scrollTop acc a = acc by
        simp only [candidateStep]
        rw [if_neg ha]]
      exact ih acc hl

end NavigationManager

namespace NavigationManager

/-- `getCurrentSection()`. -/
def getCurrentSection (st : NavState) : Option Section :=
  st.currentSection

/-- When the pointer already equals the computed section, `setActiveNavLink`
returns the state unchanged (the early return of the source). -/
theorem setActiveNavLink_eq_self (active : Option Section) (st : NavState)
    (h : st.currentSection = active) : setActiveNavLink active st = st := by
  simp [setActiveNavLink, h]

/-- `setActiveNavLink` with a null computed section never changes the state. -/
theorem setActiveNavLink_none_eq_self (st : NavState) :
    setActiveNavLink none st = st := by
  unfold setActiveNavLink
  split
  · rfl
  · rfl

/-- After `setActiveNavLink` with a non-null section, the pointer holds it. -/
theorem setActiveNavLink_some_currentSection (s : Section) (st : NavState) :
    (setActiveNavLink (some s) st).currentSection = some s := by
  unfold setActiveNavLink
  split
  · assumption
  · rfl

/-- `setActiveNavLink` never touches the section registry. -/
theorem setActiveNavLink_sections (active : Option Section) (st : NavState) :
    (setActiveNavLink active st).sections = st.sections := by
  unfold setActiveNavLink
  split
  · rfl
  · cases active
    · rfl
    · rfl

end NavigationManager

open NavigationManager in
/-- C3: a `navigationChange` notification is dispatched only when the newly
computed section differs from the stored one; recomputation yielding the
stored section is a strict no-op; and a repeated recomputation at the same
scroll position dispatches nothing further. -/
theorem navigationChange_only_on_change (st : NavState) (active : Option Section) :
    (st.currentSection = active → setActiveNavLink active st = st) ∧
      ((setActiveNavLink active st).events ≠ st.events → st.currentSection ≠ active) ∧
      ∀ scrollTop : Int,
        (updateActiveNavigation scrollTop (updateActiveNavigation scrollTop st)).events =
          (updateActiveNavigation scrollTop st).events := by
  refine ⟨fun h => setActiveNavLink_eq_self active st h, fun hne h => ?_, fun scrollTop => ?_⟩
  · exact hne (by rw [setActiveNavLink_eq_self active st h])
  · unfold updateActiveNavigation
    rw [setActiveNavLink_sections]
    cases hc : computeActiveSection st.sections scrollTop with
    | none => rw [setActiveNavLink_none_eq_self, setActiveNavLink_none_eq_self]
    | some s =>
        rw [setActiveNavLink_eq_self (some s) _
          (setActiveNavLink_some_currentSection s st)]

open NavigationManager in
/-- Witness for `navigationChange_only_on_change`: at a state whose pointer is
the home section, recomputing with the same section changes nothing. -/
theorem navigationChange_only_on_change_witness :
    setActiveNavLink (some ⟨"home", 0, 10⟩)
        ⟨[⟨"home", 0, 10⟩], some ⟨"home", 0, 10⟩, ["home"]⟩ =
      ⟨[⟨"home", 0, 10⟩], some ⟨"home", 0, 10⟩, ["home"]⟩ :=
  (navigationChange_only_on_change ⟨[⟨"home", 0, 10⟩], some ⟨"home", 0, 10⟩, ["home"]⟩
    (some ⟨"home", 0, 10⟩)).1 rfl

open NavigationManager in
/-- C10: the pointer never reverts to null: a null computed section leaves the
state untouched and dispatches nothing, and once `getCurrentSection` is
non-null it stays non-null under `setActiveNavLink` and under any
recomputation `updateActiveNavigation`. -/
theorem currentSection_never_reverts_to_null (st : NavState) (active : Option Section) :
    setActiveNavLink none st = st ∧
      (getCurrentSection st ≠ none → getCurrentSection (setActiveNavLink active st) ≠ none) ∧
      ∀ scrollTop : Int,
        getCurrentSection st ≠ none →
          getCurrentSection (updateActiveNavigation scrollTop st) ≠ none := by
  have key : ∀ a, getCurrentSection st ≠ none → getCurrentSection (setActiveNavLink a st) ≠ none := by
    intro a h
    cases a with
    | none => rw [setActiveNavLink_none_eq_self]; exact h
    | some s =>
        unfold getCurrentSection
        rw [setActiveNavLink_some_currentSection]
        exact Option.some_ne_none s
  exact ⟨setActiveNavLink_none_eq_self st, key active,
    fun scrollTop => key (computeActiveSection st.sections scrollTop)⟩

open NavigationManager in
/-- Witness for `currentSection_never_reverts_to_null` at a concrete state with
a current section and a null computed section. -/
theorem currentSection_never_reverts_to_null_witness :
    getCurrentSection (setActiveNavLink none ⟨[], some ⟨"home", 0, 10⟩, []⟩) ≠ none :=
  (currentSection_never_reverts_to_null ⟨[], some ⟨"home", 0, 10⟩, []⟩ none).2.1 (by decide)

open NavigationManager in
/-- C2 counterexample: with the registry `[s1, s2]` where `s1` starts at
offsetTop 100 (height 50) and `s2` at offsetTop 150 (height 50), the scroll
position 50 is strictly below the offsetTop of the first section, yet the
selection is `s2`, not the first section: the 100px `scrollOffset` shifts the
candidate band of `s2` up to `[50, 100)`, which captures scrollTop 50. -/
theorem updateActiveNavigation_first_section_counterexample :
    (50 : Int) < (⟨"s1", 100, 50⟩ : Section).offsetTop ∧
      computeActiveSection [⟨"s1", 100, 50⟩, ⟨"s2", 150, 50⟩] 50 = some ⟨"s2", 150, 50⟩ ∧
      (⟨"s2", 150, 50⟩ : Section) ≠ (⟨"s1", 100, 50⟩ : Section) := by
  decide

open NavigationManager in
/-- C2 (amended): for every non-empty registry in which the first section has
the least `offsetTop`, the last section has the greatest bottom
(`offsetTop + offsetHeight`), and the first section has a nonnegative height,
`updateActiveNavigation` selects the first section whenever `scrollTop` is
strictly below the first section top shifted by the 100px `scrollOffset`
(`offsetTop - 100`), and selects the last section whenever `scrollTop` is at or
beyond the last section bottom. -/
theorem updateActiveNavigation_boundary (first last : Section) (rest : List Section)
    (scrollTop : Int)
    (hlast : (first :: rest).getLast? = some last)
    (hbounds : ∀ s ∈ first :: rest,
      first.offsetTop ≤ s.offsetTop ∧
        s.offsetTop + s.offsetHeight ≤ last.offsetTop + last.offsetHeight)
    (hheight : 0 ≤ first.offsetHeight) :
    (scrollTop < first.offsetTop - scrollOffset →
        computeActiveSection (first :: rest) scrollTop = some first ∧
          ∀ st : NavState, st.sections = first :: rest →
            (updateActiveNavigation scrollTop st).currentSection = some first) ∧
      (last.offsetTop + last.offsetHeight ≤ scrollTop →
        computeActiveSection (first :: rest) scrollTop = some last ∧
          ∀ st : NavState, st.sections = first :: rest →
            (updateActiveNavigation scrollTop st).currentSection = some last) := by
  have hso : scrollOffset = 100 := rfl
  constructor
  · intro hlt
    have hnone : ∀ s ∈ first :: rest,
        ¬(scrollTop ≥ s.offsetTop - scrollOffset ∧
          scrollTop < s.offsetTop - scrollOffset + s.offsetHeight) := by
      intro s hs hc
      have h1 := (hbounds s hs).1
      omega
    have hcomp : computeActiveSection (first :: rest) scrollTop = some first := by
      unfold computeActiveSection
      rw [foldl_candidateStep_none scrollTop (first :: rest) none hnone]
      have hfl : scrollTop < first.offsetTop := by omega
      simp [hfl]
    refine ⟨hcomp, fun st hst => ?_⟩
    unfold updateActiveNavigation
    rw [hst, hcomp, setActiveNavLink_some_currentSection]
  · intro hge
    have hnone : ∀ s ∈ first :: rest,
        ¬(scrollTop ≥ s.offsetTop - scrollOffset ∧
          scrollTop < s.offsetTop - scrollOffset + s.offsetHeight) := by
      intro s hs hc
      have h2 := (hbounds s hs).2
      omega
    have hfirst := (hbounds first (List.mem_cons_self first rest)).2
    have hcomp : computeActiveSection (first :: rest) scrollTop = some last := by
      unfold computeActiveSection
      rw [foldl_candidateStep_none scrollTop (first :: rest) none hnone]
      have hnl : ¬ scrollTop < first.offsetTop := by omega
      simp [hnl, hlast]
    refine ⟨hcomp, fun st hst => ?_⟩
    unfold updateActiveNavigation
    rw [hst, hcomp, setActiveNavLink_some_currentSection]

open NavigationManager in
/-- Witness for `updateActiveNavigation_boundary` on a concrete two-section
registry, at a scroll position above the shifted first top and at one beyond
the last bottom. -/
theorem updateActiveNavigation_boundary_witness :
    computeActiveSection [⟨"home", 200, 300⟩, ⟨"about", 500, 400⟩] 50 =
        some ⟨"home", 200, 300⟩ ∧
      computeActiveSection [⟨"home", 200, 300⟩, ⟨"about", 500, 400⟩] 900 =
        some ⟨"about", 500, 400⟩ :=
  ⟨((updateActiveNavigation_boundary ⟨"home", 200, 300⟩ ⟨"about", 500, 400⟩
      [⟨"about", 500, 400⟩] 50 (by decide) (by decide) (by decide)).1 (by decide)).1,
   ((updateActiveNavigation_boundary ⟨"home", 200, 300⟩ ⟨"about", 500, 400⟩
      [⟨"about", 500, 400⟩] 900 (by decide) (by decide) (by decide)).2 (by decide)).1⟩

namespace ScrollEffects

/-- The inline `transform` style of a registered parallax element: untouched,
reset to the neutral `translateY(0)`, or the scheduled
`translate3d(0, y px, 0)`. -/
inductive Transform
  | initial
  | neutralY
  | translate3d (y : ℚ)
deriving Repr, DecidableEq

/-- One entry of `this.parallaxElements`: the element is represented by its
inline transform, together with the registered `speed` factor. -/
structure ParallaxItem where
  speed : ℚ
  transform : Transform
deriving Repr, DecidableEq

/-- Observable state of a `ScrollEffects` instance for the parallax claims. -/
structure ScrollState where
  isReducedMotion : Bool
  lastScrollTop : ℚ
  parallax : List ParallaxItem
deriving Repr, DecidableEq

/-- The speed factor registered by `setupParallaxElements` for one candidate:
0.3 when the element carries the hero-section class, 0.5 otherwise. -/
def parallaxSpeed (isHeroSection : Bool) : ℚ :=
  if isHeroSection then 3 / 10 else 5 / 10

/-- The per-element parallax offset of `handleScroll`:
`Math.round(scrollTop * speed * 100) / 100`.  (`Math.round` is round half
towards positive infinity, which is the library `round` on ℚ.) -/
def parallaxOffset (scrollTop speed : ℚ) : ℚ :=
  ((round (scrollTop * speed * 100) : ℤ) : ℚ) / 100

/-- `handleScroll()` at the page scroll position `scrollTop`: bail out under
reduced motion or with no registered elements; bail out when the movement since
the last update is under the 2px jitter threshold; otherwise record the new
`lastScrollTop` and (via the animation-frame callback, which the single
threaded event loop runs) set every registered element transform to the
computed `translate3d` offset. -/
def handleScroll (scrollTop : ℚ) (st : ScrollState) : ScrollState :=
  if st.isReducedMotion ∨ st.parallax = [] then st
  else if |scrollTop - st.lastScrollTop| < 2 then st
  else
    { st with
      lastScrollTop := scrollTop
      parallax := st.parallax.map fun item =>
        { item with transform := .translate3d (parallaxOffset scrollTop item.speed) } }

/-- `handleResize()` with the page at scroll position `scrollTop` when the
100ms settle timer fires: bail out under reduced motion; otherwise reset every
registered transform to the neutral `translateY(0)` and, after the settle
delay, run `handleScroll`. -/
def handleResize (scrollTop : ℚ) (st : ScrollState) : ScrollState :=
  if st.isReducedMotion then st
  else
    handleScroll scrollTop
      { st with parallax := st.parallax.map fun item => { item with transform := .neutralY } }

end ScrollEffects

open ScrollEffects in
/-- C6: whenever `handleScroll` is past its guards (motion not reduced, at
least one registered element, movement at or above the 2px threshold), the
transform applied to every registered element is exactly
`translate3d(0, round(scrollTop * speed * 100) / 100 px, 0)`; and for the hero
speed 0.3 at scrollTop 1000 the computed offset is exactly 300. -/
theorem handleScroll_offsets (st : ScrollState) (scrollTop : ℚ)
    (hrm : st.isReducedMotion = false) (hne : st.parallax ≠ [])
    (hmove : 2 ≤ |scrollTop - st.lastScrollTop|) :
    (handleScroll scrollTop st).parallax =
        st.parallax.map (fun item =>
          { item with transform := .translate3d (parallaxOffset scrollTop item.speed) }) ∧
      parallaxOffset 1000 (parallaxSpeed true) = 300 := by
  constructor
  · unfold handleScroll
    rw [if_neg (by simp [hrm, hne]), if_neg (not_lt.mpr hmove)]
  · norm_num [parallaxOffset, parallaxSpeed]

open ScrollEffects in
/-- Witness for `handleScroll_offsets` at a concrete state: one hero element,
last update at scrollTop 0, scrolled to 1000. -/
theorem handleScroll_offsets_witness :
    (handleScroll 1000 ⟨false, 0, [⟨3 / 10, .initial⟩]⟩).parallax =
        [⟨3 / 10, .translate3d 300⟩] := by
  have h := (handleScroll_offsets ⟨false, 0, [⟨3 / 10, .initial⟩]⟩ 1000
    rfl (by decide) (by norm_num)).1
  rw [h]
  have h300 : parallaxOffset 1000 (3 / 10) = 300 :=
    (handleScroll_offsets ⟨false, 0, [⟨3 / 10, .initial⟩]⟩ 1000
      rfl (by decide) (by norm_num)).2
  simp [List.map, h300]

open ScrollEffects in
/-- C1: evaluation at the failing input.  State: one registered hero element
(speed 0.3) whose transform carries the offset 300 from the last update at
`lastScrollTop = 1000`; the window is resized while the page stays at scroll
position 1000.  `handleResize` resets the transform to neutral, and the settle
call to `handleScroll` early-returns on the 2px jitter guard (the scroll
position is unchanged), so the correct offset 300 is NOT re-applied: the
element is left at the neutral transform. -/
theorem handleResize_unchanged_scroll_stays_neutral :
    (handleResize 1000 ⟨false, 1000, [⟨3 / 10, .translate3d 300⟩]⟩).parallax =
        [⟨3 / 10, .neutralY⟩] ∧
      Transform.neutralY ≠ .translate3d (parallaxOffset 1000 (3 / 10)) := by
  constructor
  · show (handleScroll 1000 ⟨false, 1000, [⟨3 / 10, .neutralY⟩]⟩).parallax = _
    unfold handleScroll
    rw [if_neg (by decide), if_pos (by norm_num)]
  · decide

namespace FormValidation

/-- The input kinds relevant to rule derivation (`input.type`). -/
inductive InputType
  | text
  | email
  | tel
  | url
deriving Repr, DecidableEq

/-- A form field as `getValidationRules` reads it: presence of the HTML
validation attributes, the input kind, and the current value. -/
structure Input where
  required : Bool
  type : InputType
  minlength : Option String
  maxlength : Option String
  pattern : Option String
  dataValidate : Option String
  value : String
deriving Repr, DecidableEq

/-- A validation rule: `{ type, param }`. -/
structure Rule where
  type : String
  param : Option String
deriving Repr, DecidableEq

/-- Browser-native primitives used by the validators, treated as given:
`regexTest pat v` is `new RegExp(pat).test(v)` and `urlParses v` is whether
`new URL(v)` succeeds. -/
structure JsPrims where
  regexTest : String → String → Bool
  urlParses : String → Bool

/-- JS `parseInt` on a string: after trimming, an optional sign followed by
leading decimal digits; `none` models `NaN`. -/
def parseIntJS (s : String) : Option Int :=
  let t := s.trim
  let (sign, digits) :=
    if t.startsWith "-" then ((-1 : Int), t.drop 1)
    else if t.startsWith "+" then ((1 : Int), t.drop 1)
    else ((1 : Int), t)
  let ds := digits.takeWhile Char.isDigit
  if ds.isEmpty then none
  else some (sign * (ds.toNat?.getD 0 : Int))

/-- The `required` validator: the value is truthy and non-blank after trim. -/
def requiredValidator (value : String) : Bool :=
  !(value == "") && decide (0 < value.trim.length)

/-- The email regular expression literal of the source. -/
def emailRegexStr : String := "^[^\\s@]+@[^\\s@]+\\.[^\\s@]+$"

/-- The `email` validator: empty values pass, otherwise the trimmed value must
match the email regular expression. -/
def emailValidator (p : JsPrims) (value : String) : Bool :=
  value == "" || p.regexTest emailRegexStr value.trim

/-- The `minLength` validator: empty values pass, otherwise the trimmed length
must be at least `parseInt(param)` (a `NaN` comparison is false). -/
def minLengthValidator (value : String) (param : Option String) : Bool :=
  value == "" ||
    match param.bind parseIntJS with
    | none => false
    | some m => decide ((value.trim.length : Int) ≥ m)

/-- The `maxLength` validator: empty values pass, otherwise the trimmed length
must be at most `parseInt(param)` (a `NaN` comparison is false). -/
def maxLengthValidator (value : String) (param : Option String) : Bool :=
  value == "" ||
    match param.bind parseIntJS with
    | none => false
    | some m => decide ((value.trim.length : Int) ≤ m)

/-- The `pattern` validator: empty values pass, otherwise the value must match
the parameter compiled as a regular expression (an absent parameter compiles to
the empty pattern, which matches everything). -/
def patternValidator (p : JsPrims) (value : String) (param : Option String) : Bool :=
  if value == "" then true
  else
    match param with
    | none => true
    | some pat => p.regexTest pat value

/-- `value.replace` of whitespace, dashes and parentheses with nothing. -/
def stripPhoneSeparators (value : String) : String :=
  String.mk (value.toList.filter fun c =>
    !(c.isWhitespace || c == '-' || c == '(' || c == ')'))

/-- The phone regular expression literal of the source. -/
def phoneRegexStr : String := "^[+]?[1-9][\\d]\x7b0,15\x7d$"

/-- The `phone` validator: empty values pass, otherwise the value with
separators stripped must match the phone regular expression. -/
def phoneValidator (p : JsPrims) (value : String) : Bool :=
  if value == "" then true
  else p.regexTest phoneRegexStr (stripPhoneSeparators value)

/-- The `url` validator: empty values pass, otherwise the value must parse as a
well-formed URL. -/
def urlValidator (p : JsPrims) (value : String) : Bool :=
  if value == "" then true
  else p.urlParses value

/-- The validator table built by `setupValidators`, keyed by rule kind. -/
def validators (p : JsPrims) : List (String × (String → Option String → Bool)) :=
  [("required", fun value _ => requiredValidator value),
   ("email", fun value _ => emailValidator p value),
   ("minLength", fun value param => minLengthValidator value param),
   ("maxLength", fun value param => maxLengthValidator value param),
   ("pattern", fun value param => patternValidator p value param),
   ("phone", fun value _ => phoneValidator p value),
   ("url", fun value _ => urlValidator p value)]

/-- `runValidation(rule, value)`: look the rule kind up in the validator table;
with no registered validator the rule passes, otherwise apply the validator to
the value and the rule parameter. -/
def runValidation (p : JsPrims) (rule : Rule) (value : String) : Bool :=
  match (validators p).lookup rule.type with
  | none => true
  | some validator => validator value rule.param

/-- One entry of the comma-separated `data-validate` extension,
`kind:param` split on the colon with both parts trimmed. -/
def parseCustomRule (r : String) : Rule :=
  let parts := r.splitOn ":"
  { type := (parts.headD "").trim, param := (parts.get? 1).map String.trim }

/-- `getValidationRules(input)`: derive the rule list from the field
attributes, in the fixed source order required, email, minLength, maxLength,
pattern, phone, url, then the custom `data-validate` rules. -/
def getValidationRules (input : Input) : List Rule :=
  (if input.required then [{ type := "required", param := none }] else []) ++
    (if input.type = .email then [{ type := "email", param := none }] else []) ++
    (match input.minlength with
      | some m => [{ type := "minLength", param := some m }]
      | none => []) ++
    (match input.maxlength with
      | some m => [{ type := "maxLength", param := some m }]
      | none => []) ++
    (match input.pattern with
      | some pat => [{ type := "pattern", param := some pat }]
      | none => []) ++
    (if input.type = .tel then [{ type := "phone", param := none }] else []) ++
    (if input.type = .url then [{ type := "url", param := none }] else []) ++
    (match input.dataValidate with
      | some s => (s.splitOn ",").map parseCustomRule
      | none => [])

/-- `validateField(input)`: evaluate the derived rules in order and stop at the
first failing one; `some rule` is the rule whose error the field reports,
`none` means the field is marked valid. -/
def validateField (p : JsPrims) (input : Input) : Option Rule :=
  (getValidationRules input).find? fun rule => !(runValidation p rule input.value)

/-- A successful `find?` splits the list at the found element, with everything
before it failing the predicate. -/
theorem find?_eq_some_split {α : Type} (q : α → Bool) (l : List α) (a : α)
    (h : l.find? q = some a) :
    q a = true ∧ ∃ l1 l2, l = l1 ++ a :: l2 ∧ ∀ x ∈ l1, q x = false := by
  induction l with
  | nil => cases h
  | cons b t ih =>
      by_cases hb : q b = true
      · rw [List.find?_cons_of_pos _ hb] at h
        cases h
        exact ⟨hb, [], t, rfl, by simp⟩
      · rw [List.find?_cons_of_neg _ hb] at h
        obtain ⟨hq, l1, l2, heq, hall⟩ := ih h
        refine ⟨hq, b :: l1, l2, by rw [heq, List.cons_append], ?_⟩
        intro x hx
        rcases List.mem_cons.mp hx with rfl | hx
        · simpa using hb
        · exact hall x hx

/-- Every validator other than `required` accepts the empty value. -/
theorem runValidation_empty_of_ne_required (p : JsPrims) (t : String) (prm : Option String)
    (ht : t ≠ "required") : runValidation p ⟨t, prm⟩ "" = true := by
  by_cases h2 : t = "email"
  · subst h2; simp [runValidation, validators, List.lookup, emailValidator]
  by_cases h3 : t = "minLength"
  · subst h3; simp [runValidation, validators, List.lookup, minLengthValidator]
  by_cases h4 : t = "maxLength"
  · subst h4; simp [runValidation, validators, List.lookup, maxLengthValidator]
  by_cases h5 : t = "pattern"
  · subst h5; simp [runValidation, validators, List.lookup, patternValidator]
  by_cases h6 : t = "phone"
  · subst h6; simp [runValidation, validators, List.lookup, phoneValidator]
  by_cases h7 : t = "url"
  · subst h7; simp [runValidation, validators, List.lookup, urlValidator]
  have e1 : (t == "required") = false := by simpa using ht
  have e2 : (t == "email") = false := by simpa using h2
  have e3 : (t == "minLength") = false := by simpa using h3
  have e4 : (t == "maxLength") = false := by simpa using h4
  have e5 : (t == "pattern") = false := by simpa using h5
  have e6 : (t == "phone") = false := by simpa using h6
  have e7 : (t == "url") = false := by simpa using h7
  simp [runValidation, validators, List.lookup, e1, e2, e3, e4, e5, e6, e7]

end FormValidation

open FormValidation in
/-- C4: rule evaluation is in the fixed derivation order with a short-circuit
at the first failing rule: when the field has the required attribute the
required rule heads the derived list; whenever `validateField` reports a rule,
that rule fails and every rule derived before it passes; and a field with the
required attribute whose value fails the required validator always reports the
required rule (never, in particular, a pattern rule also present). -/
theorem validateField_fixed_order (p : JsPrims) (input : Input) :
    (input.required = true →
        (getValidationRules input).head? = some { type := "required", param := none }) ∧
      (∀ r, validateField p input = some r →
        runValidation p r input.value = false ∧
          ∃ pre post, getValidationRules input = pre ++ r :: post ∧
            ∀ r2 ∈ pre, runValidation p r2 input.value = true) ∧
      (input.required = true → requiredValidator input.value = false →
        validateField p input = some { type := "required", param := none }) := by
  have hreqrun : runValidation p { type := "required", param := none } input.value =
      requiredValidator input.value := rfl
  refine ⟨fun hreq => ?_, fun r hr => ?_, fun hreq hfail => ?_⟩
  · unfold getValidationRules
    rw [if_pos hreq]
    simp only [List.append_assoc, List.singleton_append]
    rfl
  · obtain ⟨hq, pre, post, heq, hall⟩ :=
      find?_eq_some_split (fun rule => !(runValidation p rule input.value))
        (getValidationRules input) r hr
    refine ⟨by simpa using hq, pre, post, heq, fun r2 h2 => ?_⟩
    simpa using hall r2 h2
  · unfold validateField getValidationRules
    rw [if_pos hreq]
    simp only [List.append_assoc, List.singleton_append, List.cons_append]
    rw [List.find?_cons_of_pos _ (by rw [Bool.not_eq_true']; rw [hreqrun]; exact hfail)]

open FormValidation in
/-- Witness for `validateField_fixed_order`: a field with both the required
attribute and a pattern attribute, holding the empty value, reports the
required rule. -/
theorem validateField_fixed_order_witness :
    validateField ⟨fun _ _ => false, fun _ => false⟩
        ⟨true, .text, none, none, some "^[a-z]+$", none, ""⟩ =
      some { type := "required", param := none } :=
  (validateField_fixed_order ⟨fun _ _ => false, fun _ => false⟩
    ⟨true, .text, none, none, some "^[a-z]+$", none, ""⟩).2.2 rfl (by decide)

open FormValidation in
/-- C5: every rule kind other than required accepts the empty value: for any
parameter, a minLength or maxLength rule passes on the empty string, any
non-required rule passes on the empty string, and a non-required field holding
the empty value with any minlength attribute is marked valid by
`validateField`. -/
theorem empty_value_passes_non_required (p : JsPrims) (param : Option String) :
    (∀ t prm, t ≠ "required" → runValidation p ⟨t, prm⟩ "" = true) ∧
      runValidation p { type := "minLength", param := param } "" = true ∧
      runValidation p { type := "maxLength", param := param } "" = true ∧
      ∀ m : String,
        validateField p ⟨false, .text, some m, none, none, none, ""⟩ = none := by
  refine ⟨fun t prm ht => runValidation_empty_of_ne_required p t prm ht,
    runValidation_empty_of_ne_required p _ param (by decide),
    runValidation_empty_of_ne_required p _ param (by decide),
    fun m => ?_⟩
  have hmin : runValidation p { type := "minLength", param := some m } "" = true :=
    runValidation_empty_of_ne_required p _ _ (by decide)
  simp [validateField, getValidationRules, hmin]

open FormValidation in
/-- Witness for `empty_value_passes_non_required`: an optional empty field with
the minlength attribute set to 5 validates as valid. -/
theorem empty_value_passes_non_required_witness :
    runValidation ⟨fun _ _ => false, fun _ => false⟩
        { type := "minLength", param := some "5" } "" = true ∧
      validateField ⟨fun _ _ => false, fun _ => false⟩
        ⟨false, .text, some "5", none, none, none, ""⟩ = none :=
  ⟨(empty_value_passes_non_required ⟨fun _ _ => false, fun _ => false⟩ (some "5")).1
      "minLength" (some "5") (by decide),
   (empty_value_passes_non_required ⟨fun _ _ => false, fun _ => false⟩ (some "5")).2.2.2 "5"⟩

open FormValidation in
/-- C9: a rule whose kind has no entry in the validator table passes
`runValidation` for every value, and consequently a field is never reported
invalid through such a rule: any rule `validateField` reports has a registered
validator. -/
theorem unknown_rule_never_invalid (p : JsPrims) (rule : Rule) (value : String) :
    ((validators p).lookup rule.type = none → runValidation p rule value = true) ∧
      ∀ input r, validateField p input = some r → (validators p).lookup r.type ≠ none := by
  refine ⟨fun h => by simp [runValidation, h], fun input r hr hnone => ?_⟩
  have hq := List.find?_some hr
  have hfail : runValidation p r input.value = false := by simpa using hq
  rw [show runValidation p r input.value = true by simp [runValidation, hnone]] at hfail
  cases hfail

open FormValidation in
/-- Witness for `unknown_rule_never_invalid` at the concrete unrecognized rule
kind coming from a `data-validate` attribute naming `foo`. -/
theorem unknown_rule_never_invalid_witness :
    runValidation ⟨fun _ _ => false, fun _ => false⟩ { type := "foo", param := none }
      "anything" = true :=
  (unknown_rule_never_invalid ⟨fun _ _ => false, fun _ => false⟩
    { type := "foo", param := none } "anything").1 rfl
